import Mathlib

/-!
Shallow embedding of `src/weather_analyzer.py` (WeatherForecastBot).

Modelling conventions:
* Python floats are modelled as exact rationals (`ℚ`); decimal literals such
  as `0.1` become `1/10`.
* Python dicts with possibly-absent keys become structures with `Option`
  fields; `d['k']` (which raises `KeyError` when absent) becomes an access
  through `getKey` in the `Except String` monad, while `d.get('k', v)`
  becomes `Option.getD`.
* `statistics.mean` raises `StatisticsError` on an empty list; `pyMean`
  mirrors that in `Except`.
* `statistics.stdev` returns `sqrt` of the sample variance, which is
  irrational; the embedding carries the sample variance (`temp_var`)
  instead, and the volatility test `stdev > 5` is embedded as the exactly
  equivalent `variance > 25` (both sides nonnegative).  No claim constrains
  the reported rounded standard deviation itself.
* Python `round(x, 1)` and the `.1f` / `.0f` format specifiers round half
  to even; `rhe` (round half even) embeds that on rationals.
* `str(x)` on a numeric value is embedded by `ratStr`, the terminating
  decimal expansion (integers print without a decimal point, as Python
  prints `int` values read from JSON).
-/

/-- Floor of a rational, written directly on its reduced numerator and
denominator so that the kernel can evaluate it (`Int.fdiv` is floor division
and `q.den > 0`). -/
def qfloor (q : ℚ) : ℤ := q.num.fdiv q.den

/-- Round half to even to an integer (Python `round(x)` / banker's rounding). -/
def rhe (y : ℚ) : ℤ :=
  let n : ℤ := qfloor y
  let f : ℚ := y - (n : ℚ)
  if f < 1/2 then n
  else if 1/2 < f then n + 1
  else if n % 2 = 0 then n else n + 1

/-- Python `round(x, 1)`: round to one decimal place, half to even. -/
def round1 (x : ℚ) : ℚ := (rhe (10 * x) : ℚ) / 10

/-- Python `statistics.mean`, which raises `StatisticsError` on an empty list. -/
def pyMean (l : List ℚ) : Except String ℚ :=
  if l.isEmpty then .error "StatisticsError: mean requires at least one data point"
  else .ok (l.sum / l.length)

/-- Sample variance (the square of Python `statistics.stdev`), for lists of length ≥ 2. -/
def sampleVar (l : List ℚ) : ℚ :=
  let μ : ℚ := l.sum / l.length
  (l.map (fun x => (x - μ) ^ 2)).sum / ((l.length : ℚ) - 1)

/-- Fractional decimal digits of `num/den` (0 ≤ num < den), up to `fuel` digits. -/
def decDigits (num den : ℕ) : ℕ → String
  | 0 => ""
  | fuel + 1 =>
    if num = 0 then ""
    else
      let d := num * 10 / den
      let r := num * 10 % den
      Nat.repr d ++ decDigits r den fuel

/-- Python `str` of an integer. -/
def intStr (n : ℤ) : String :=
  (if n < 0 then "-" else "") ++ Nat.repr n.natAbs

/-- Python `str` of a number: terminating decimal expansion of a rational
(integral values print with no decimal point, like Python ints). -/
def ratStr (q : ℚ) : String :=
  let ip : ℕ := q.num.natAbs / q.den
  let fp : ℕ := q.num.natAbs % q.den
  (if q < 0 then "-" else "") ++
    (if fp = 0 then Nat.repr ip else Nat.repr ip ++ "." ++ decDigits fp q.den 17)

/-- Python format spec `.1f`: exactly one decimal digit, rounded half to even. -/
def fmt1 (x : ℚ) : String :=
  let r : ℤ := rhe (10 * x)
  (if r < 0 then "-" else "") ++ Nat.repr (r.natAbs / 10) ++ "." ++ Nat.repr (r.natAbs % 10)

/-- Python format spec `+.1f`: like `.1f` but with an explicit sign. -/
def fmt1s (x : ℚ) : String :=
  (if rhe (10 * x) < 0 then "" else "+") ++ fmt1 x

/-- Python format spec `.0f`: round half to even to an integer, no decimal point. -/
def fmt0 (x : ℚ) : String := intStr (rhe x)

/-- Check whether `pat` occurs as a contiguous sublist of `s`. -/
def infixCheck (pat : List Char) : List Char → Bool
  | [] => pat.isEmpty
  | c :: rest => pat.isPrefixOf (c :: rest) || infixCheck pat rest

/-- Python `pat in s` substring test. -/
def strContains (s pat : String) : Bool := infixCheck pat.data s.data

/-- A forecast / historical record (`Dict` in the source); keys may be absent. -/
structure Forecast where
  date : String
  temp_max : Option ℚ
  temp_min : Option ℚ
  weather : Option String
  humidity : Option ℚ
  precipitation_probability : Option ℚ
  wind_scale : Option String
deriving Repr, DecidableEq

/-- The `analysis` section of the configuration (`self.analysis_config`);
every option may be absent, in which case `.get` defaults apply. -/
structure AnalysisConfig where
  temp_change_threshold : Option ℚ
  hot_warning_temp : Option ℚ
  cold_warning_temp : Option ℚ
  temp_diff_threshold : Option ℚ
deriving Repr, DecidableEq

/-- The `temperature_trend` dict: `{}` when no historical temp_max exists,
`{'trend': …}` on the no-history path, or the full nine-key dict. -/
inductive TempTrend where
  | empty : TempTrend
  | simpleOnly (trend : String) : TempTrend
  | full (trend : String) (max_temp_change min_temp_change avg_max_temp avg_min_temp
      tomorrow_diff avg_hist_diff : ℚ) (volatility : String) (temp_var : ℚ) : TempTrend
deriving Repr, DecidableEq

/-- Python truthiness of the `temperature_trend` dict (`{}` is falsy). -/
def TempTrend.isTruthy : TempTrend → Bool
  | .empty => false
  | _ => true

/-- `temperature_trend.get('trend', d)`. -/
def TempTrend.trendD (d : String) : TempTrend → String
  | .empty => d
  | .simpleOnly t => t
  | .full t _ _ _ _ _ _ _ _ => t

/-- `temperature_trend.get('max_temp_change', d)`. -/
def TempTrend.maxChangeD (d : ℚ) : TempTrend → ℚ
  | .full _ mc _ _ _ _ _ _ _ => mc
  | _ => d

/-- `temperature_trend.get('min_temp_change', d)`. -/
def TempTrend.minChangeD (d : ℚ) : TempTrend → ℚ
  | .full _ _ mn _ _ _ _ _ _ => mn
  | _ => d

/-- `temperature_trend.get('tomorrow_diff', d)`. -/
def TempTrend.tomorrowDiffD (d : ℚ) : TempTrend → ℚ
  | .full _ _ _ _ _ td _ _ _ => td
  | _ => d

/-- `temperature_trend.get('avg_hist_diff', d)`. -/
def TempTrend.avgHistDiffD (d : ℚ) : TempTrend → ℚ
  | .full _ _ _ _ _ _ ad _ _ => ad
  | _ => d

/-- The `precipitation_trend` dict (always fully populated when present). -/
structure PrecipTrend where
  probability : ℚ
  trend : String
  recent_rainy_days : ℕ
  weather_desc : String
deriving Repr, DecidableEq

/-- The `comfort_analysis` dict (always fully populated when present). -/
structure ComfortAnalysis where
  apparent_temp : ℚ
  comfort_level : String
  humidity : ℚ
  temp_diff : ℚ
deriving Repr, DecidableEq

/-- The `suggestions` dict (always fully populated). -/
structure Suggestions where
  clothing : String
  activity : String
  health : String
deriving Repr, DecidableEq

/-- The analysis dict returned by `analyze_weather_trend`;
`precipitation_trend` / `comfort_analysis` are absent on the no-history path. -/
structure Analysis where
  tomorrow : Forecast
  temperature_trend : TempTrend
  precipitation_trend : Option PrecipTrend
  comfort_analysis : Option ComfortAnalysis
  weather_warnings : List String
  suggestions : Suggestions
deriving Repr, DecidableEq

/-- `d['k']` on a possibly-absent key: raises `KeyError` when absent. -/
def getKey (o : Option ℚ) (k : String) : Except String ℚ :=
  match o with
  | some v => .ok v
  | none => .error ("KeyError: " ++ k)

/-- Default trend-significance threshold: `get('temp_change_threshold', 3)`. -/
def AnalysisConfig.tempChangeThreshold (cfg : AnalysisConfig) : ℚ :=
  cfg.temp_change_threshold.getD 3

/-- Default heat-warning threshold: `get('hot_warning_temp', 35)`. -/
def AnalysisConfig.hotWarningTemp (cfg : AnalysisConfig) : ℚ :=
  cfg.hot_warning_temp.getD 35

/-- Default cold-warning threshold: `get('cold_warning_temp', 5)`. -/
def AnalysisConfig.coldWarningTemp (cfg : AnalysisConfig) : ℚ :=
  cfg.cold_warning_temp.getD 5

/-- Default diurnal-range threshold: `get('temp_diff_threshold', 10)`. -/
def AnalysisConfig.tempDiffThreshold (cfg : AnalysisConfig) : ℚ :=
  cfg.temp_diff_threshold.getD 10

/-- `_analyze_temperature_trend` (weather_analyzer.py lines 46-87). -/
def analyze_temperature_trend (cfg : AnalysisConfig) (tomorrow : Forecast)
    (historical : List Forecast) : Except String TempTrend :=
  let hist_max_temps := historical.filterMap (·.temp_max)
  let hist_min_temps := historical.filterMap (·.temp_min)
  if hist_max_temps.isEmpty then .ok .empty
  else
    match pyMean hist_max_temps with
    | .error e => .error e
    | .ok avg_max_temp =>
      match pyMean hist_min_temps with
      | .error e => .error e
      | .ok avg_min_temp =>
        match getKey tomorrow.temp_max "temp_max" with
        | .error e => .error e
        | .ok tmax =>
          match getKey tomorrow.temp_min "temp_min" with
          | .error e => .error e
          | .ok tmin =>
            let max_temp_change := tmax - avg_max_temp
            let min_temp_change := tmin - avg_min_temp
            -- `statistics.stdev(hist_max_temps) if len(...) > 1 else 0`,
            -- carried as the sample variance (see header note).
            let temp_var := if 1 < hist_max_temps.length then sampleVar hist_max_temps else 0
            let trend :=
              if |max_temp_change| > cfg.tempChangeThreshold then
                (if max_temp_change > 0 then "显著升温" else "显著降温")
              else if |max_temp_change| > 3/2 then
                (if max_temp_change > 0 then "小幅升温" else "小幅降温")
              else "稳定"
            let tomorrow_diff := tmax - tmin
            let avg_hist_diff := avg_max_temp - avg_min_temp
            -- `'volatility': 'high' if temp_std > 5 else 'normal'`; for the
            -- nonnegative std, `std > 5 ↔ variance > 25`.
            .ok (.full trend (round1 max_temp_change) (round1 min_temp_change)
              (round1 avg_max_temp) (round1 avg_min_temp) (round1 tomorrow_diff)
              (round1 avg_hist_diff) (if temp_var > 25 then "high" else "normal") temp_var)

/-- `_analyze_precipitation` (lines 89-109); uses only `.get` accesses, so it is total. -/
def analyze_precipitation (tomorrow : Forecast) (historical : List Forecast) : PrecipTrend :=
  let rain_prob := tomorrow.precipitation_probability.getD 0
  let recent_rainy_days :=
    (historical.filter (fun h =>
      strContains (h.weather.getD "") "雨" || h.precipitation_probability.getD 0 > 50)).length
  let rain_trend :=
    if rain_prob > 70 then "大概率降雨"
    else if rain_prob > 40 then "可能降雨"
    else "少雨"
  ⟨rain_prob, rain_trend, recent_rainy_days, tomorrow.weather.getD "未知"⟩

/-- `_analyze_comfort` (lines 111-138). -/
def analyze_comfort (tomorrow : Forecast) : Except String ComfortAnalysis :=
  match getKey tomorrow.temp_max "temp_max" with
  | .error e => .error e
  | .ok temp_max =>
    match getKey tomorrow.temp_min "temp_min" with
    | .error e => .error e
    | .ok temp_min =>
      let humidity := tomorrow.humidity.getD 50
      let apparent_temp :=
        if temp_max > 25 then temp_max + (humidity - 50) * (1/10) else temp_max
      let comfort_level :=
        if 18 ≤ apparent_temp ∧ apparent_temp ≤ 26 then "舒适"
        else if (15 ≤ apparent_temp ∧ apparent_temp < 18) ∨
            (26 < apparent_temp ∧ apparent_temp ≤ 30) then "较舒适"
        else if apparent_temp < 15 then "偏冷"
        else "偏热"
      .ok ⟨round1 apparent_temp, comfort_level, humidity, temp_max - temp_min⟩

/-- Heat warning text (line 146). -/
def heatWarning (tmax : ℚ) : String :=
  "⚠️ 高温预警：明天最高温度将达到" ++ (ratStr tmax ++ "°C，请注意防暑降温")

/-- Cold warning text (line 149). -/
def coldWarning (tmin : ℚ) : String :=
  "⚠️ 低温预警：明天最低温度" ++ (ratStr tmin ++ "°C，注意保暖防寒")

/-- Diurnal-range warning text (line 154). -/
def diffWarning (temp_diff : ℚ) : String :=
  "⚠️ 温差较大：早晚温差达" ++ (ratStr (round1 temp_diff) ++ "°C，注意适时增减衣物")

/-- Rain warning text (line 158). -/
def rainWarning (prob : ℚ) : String :=
  "⚠️ 降雨预警：明天降雨概率" ++ (ratStr prob ++ "%，记得带伞")

/-- Abrupt day-over-day change warning text (line 166). -/
def swingWarning (temp_change : ℚ) : String :=
  "⚠️ 气温剧变：较今天" ++ ((if temp_change > 0 then "升高" else "降低") ++
    (ratStr |round1 temp_change| ++ "°C，请注意身体适应"))

/-- `_check_warnings` (lines 140-168). -/
def check_warnings (cfg : AnalysisConfig) (tomorrow : Forecast)
    (historical : List Forecast) : Except String (List String) :=
  match getKey tomorrow.temp_max "temp_max" with
  | .error e => .error e
  | .ok tmax =>
    match getKey tomorrow.temp_min "temp_min" with
    | .error e => .error e
    | .ok tmin =>
      let w1 := if tmax ≥ cfg.hotWarningTemp then [heatWarning tmax] else []
      let w2 := if tmin ≤ cfg.coldWarningTemp then [coldWarning tmin] else []
      let temp_diff := tmax - tmin
      let w3 := if temp_diff > cfg.tempDiffThreshold then [diffWarning temp_diff] else []
      -- the rain warning's text reads `tomorrow['precipitation_probability']`,
      -- which is present whenever the guard `get(..., 0) > 70` holds, so the
      -- `getD 0` below always yields the stored value when the branch fires.
      let w4 := if tomorrow.precipitation_probability.getD 0 > 70 then
          [rainWarning (tomorrow.precipitation_probability.getD 0)] else []
      let w5 :=
        match historical with
        | [] => []
        | last_day :: _ =>
          let temp_change := tmax - last_day.temp_max.getD tmax
          if |temp_change| > 8 then [swingWarning temp_change] else []
      .ok (w1 ++ w2 ++ w3 ++ w4 ++ w5)

/-- `_get_clothing_suggestion` (lines 203-250).  The `apparent_temp` parameter
is accepted, as in the source, but never read by the body.  In the branch
`temp_diff ≥ 12` and `temp_max ≥ 20` the source's f-string format spec is
malformed — `{temp_max:. 0f}` with a stray space inside the spec (line 231) —
so evaluating it raises `ValueError: Format specifier missing precision`
instead of producing text; the function therefore returns `Except`. -/
def get_clothing_suggestion (temp_max temp_min _apparent_temp : ℚ) :
    Except String String :=
  let temp_diff := temp_max - temp_min
  let morning_clothing :=
    if temp_min < -5 then "🧥 厚羽绒服 + 毛衣 + 保暖内衣"
    else if temp_min < 0 then "🧥 羽绒服/厚棉衣 + 毛衣"
    else if temp_min < 5 then "🧥 厚外套/大衣 + 毛衣"
    else if temp_min < 10 then "🧥 夹克/风衣 + 卫衣/毛衣"
    else if temp_min < 15 then "👔 外套 + 长袖"
    else if temp_min < 20 then "👕 长袖衬衫/卫衣"
    else if temp_min < 25 then "👕 短袖 + 薄外套（备用）"
    else "👕 短袖 + 短裤"
  if temp_diff ≥ 12 then
    if temp_max ≥ 20 then .error "ValueError: Format specifier missing precision"
    else
      let midday_tip :=
        if temp_max ≥ 15 then "中午可达" ++ fmt0 temp_max ++ "°C，可脱外套"
        else "中午可达" ++ fmt0 temp_max ++ "°C，可适当减少衣物"
      .ok ("**早晚**：" ++ morning_clothing ++ "\n**温差提示**：⚠️ 温差" ++
        fmt0 temp_diff ++ "°C，" ++ midday_tip ++ "，建议洋葱式穿衣")
  else if temp_diff ≥ 8 then
    let midday_tip :=
      if temp_max ≥ 20 then "中午" ++ fmt0 temp_max ++ "°C较暖，可减少外套"
      else "中午" ++ fmt0 temp_max ++ "°C，可适当减衣"
    .ok (morning_clothing ++ "\n💡 温差" ++ fmt0 temp_diff ++ "°C，" ++ midday_tip)
  else .ok morning_clothing

/-- `_get_activity_suggestion` (lines 252-267). -/
def get_activity_suggestion (weather comfort : String) (rain_prob : ℚ) : String :=
  if rain_prob > 70 then "☔ 不适宜户外活动，建议室内运动或休息"
  else if strContains weather "雨" || strContains weather "雪" then
    "🏠 户外活动受限，可选择室内健身、看书等"
  else if comfort = "舒适" then "🎯 天气宜人，适合户外运动、郊游、散步"
  else if comfort = "较舒适" then "🚶 适合适度户外活动，避免剧烈运动"
  else if comfort = "偏热" then "🌡️ 天气较热，户外活动请选择早晚时段，注意防暑"
  else if comfort = "偏冷" then "❄️ 天气较冷，户外活动请做好保暖措施"
  else "🚶 可适度户外活动"

/-- `_get_health_suggestion` (lines 269-287). -/
def get_health_suggestion (trend : String) (temp_max temp_min : ℚ) : String :=
  let s1 : List String :=
    if strContains trend "降温" then ["气温下降，注意预防感冒"]
    else if strContains trend "升温" then ["气温上升，注意补充水分"]
    else []
  let s2 : List String := if temp_max - temp_min > 12 then ["温差较大，心血管疾病患者请注意"] else []
  let s3 : List String := if temp_min < 10 then ["早晨气温低，晨练请做好保暖"] else []
  let s4 : List String := if temp_max > 30 then ["气温较高，避免长时间户外暴晒"] else []
  let suggestions := s1 ++ s2 ++ s3 ++ s4
  if suggestions.isEmpty then "💊 天气适宜，注意规律作息"
  else "💊 " ++ String.intercalate "；" suggestions

/-- `_generate_suggestions` (lines 170-201), taking the parts of the analysis
dict that the source reads (`tomorrow`, `temperature_trend`, `comfort_analysis`). -/
def generate_suggestions (tomorrow : Forecast) (temp_trend : TempTrend)
    (comfort : Option ComfortAnalysis) : Except String Suggestions :=
  match getKey tomorrow.temp_max "temp_max" with
  | .error e => .error e
  | .ok tmax =>
    match getKey tomorrow.temp_min "temp_min" with
    | .error e => .error e
    | .ok tmin =>
      match get_clothing_suggestion tmax tmin
          (match comfort with | some c => c.apparent_temp | none => tmax) with
      | .error e => .error e
      | .ok clothing =>
        let activity := get_activity_suggestion (tomorrow.weather.getD "")
          (match comfort with | some c => c.comfort_level | none => "")
          (tomorrow.precipitation_probability.getD 0)
        let health := get_health_suggestion (temp_trend.trendD "") tmax tmin
        .ok ⟨clothing, activity, health⟩

/-- `_generate_simple_report` (lines 289-304). -/
def generate_simple_report (tomorrow : Forecast) : Except String Analysis :=
  match getKey tomorrow.temp_max "temp_max" with
  | .error e => .error e
  | .ok tmax =>
    match getKey tomorrow.temp_min "temp_min" with
    | .error e => .error e
    | .ok tmin =>
      match get_clothing_suggestion tmax tmin tmax with
      | .error e => .error e
      | .ok clothing =>
        .ok ⟨tomorrow, .simpleOnly "暂无历史数据对比", none, none, [],
          ⟨clothing, "暂无建议", "注意关注天气变化"⟩⟩

/-- `analyze_weather_trend` (lines 16-44). -/
def analyze_weather_trend (cfg : AnalysisConfig) (tomorrow : Forecast)
    (historical : List Forecast) : Except String Analysis :=
  if historical.isEmpty then generate_simple_report tomorrow
  else
    match analyze_temperature_trend cfg tomorrow historical with
    | .error e => .error e
    | .ok tt =>
      let pt := analyze_precipitation tomorrow historical
      match analyze_comfort tomorrow with
      | .error e => .error e
      | .ok ca =>
        match check_warnings cfg tomorrow historical with
        | .error e => .error e
        | .ok ww =>
          match generate_suggestions tomorrow tt (some ca) with
          | .error e => .error e
          | .ok sg => .ok ⟨tomorrow, tt, some pt, some ca, ww, sg⟩

/-- `format_report` (lines 306-379).  The generation timestamp
(`datetime.now().strftime(...)`) is an implicit input of the Python code;
the embedding passes the formatted clock reading `now` explicitly. -/
def format_report (a : Analysis) (now : String) : Except String String :=
  -- the header f-string evaluates `tomorrow['temp_min']` before `tomorrow['temp_max']`
  match getKey a.tomorrow.temp_min "temp_min" with
  | .error e => .error e
  | .ok tmin =>
    match getKey a.tomorrow.temp_max "temp_max" with
    | .error e => .error e
    | .ok tmax =>
      let header := "# 🌤️ 南京明日天气播报\n\n## 📅 基本信息\n**日期**:  " ++
        a.tomorrow.date ++ "  \n**天气**: " ++ a.tomorrow.weather.getD "未知" ++
        "  \n**温度**: " ++ ratStr tmin ++ "°C ~ " ++ ratStr tmax ++
        "°C  \n**湿度**: " ++
        (match a.tomorrow.humidity with | some h => ratStr h | none => "-") ++
        "%  \n**风力**: " ++ a.tomorrow.wind_scale.getD "-" ++ "\n\n"
      let trendSec :=
        if a.temperature_trend.isTruthy then
          "## 📊 温度趋势分析\n**趋势**: " ++ a.temperature_trend.trendD "稳定" ++
          "  \n**较近期平均温度**: 最高温" ++ fmt1s (a.temperature_trend.maxChangeD 0) ++
          "°C，最低温" ++ fmt1s (a.temperature_trend.minChangeD 0) ++
          "°C  \n**早晚温差**: " ++ fmt1 (a.temperature_trend.tomorrowDiffD 0) ++
          "°C  \n**近期平均温差**: " ++ fmt1 (a.temperature_trend.avgHistDiffD 0) ++
          "°C  \n\n"
        else ""
      let precipSec :=
        match a.precipitation_trend with
        | none => ""
        | some p =>
          "## 🌧️ 降水分析\n**降水概率**: " ++ ratStr p.probability ++
          "%  \n**趋势**: " ++ p.trend ++ "  \n**近7天降雨**:  " ++
          Nat.repr p.recent_rainy_days ++ "天  \n\n"
      let comfortSec :=
        match a.comfort_analysis with
        | none => ""
        | some c =>
          "## 🌡️ 体感舒适度\n**体感温度**: " ++ ratStr c.apparent_temp ++
          "°C  \n**舒适等级**: " ++ c.comfort_level ++ "  \n\n"
      let warnSec :=
        if a.weather_warnings.isEmpty then ""
        else "## ⚠️ 天气预警\n" ++ String.join (a.weather_warnings.map (fun w => w ++ "\n\n"))
      let sugSec :=
        "## 💡 生活建议\n\n**穿衣建议**  \n" ++ a.suggestions.clothing ++
        "\n\n**活动建议**  \n" ++ a.suggestions.activity ++
        "\n\n**健康提示**  \n" ++ a.suggestions.health ++ "\n\n"
      .ok (header ++ trendSec ++ precipSec ++ comfortSec ++ warnSec ++ sugSec ++
        "---\n*数据来源: 和风天气*  \n*生成时间: " ++ now ++ "*\n")

/-- Two strings with different characters at index 3 of their literal heads
stay different after appending arbitrary tails. -/
theorem append_ne_of_char3 (p q s t : String) (hp : 3 < p.data.length)
    (hq : 3 < q.data.length) (h : p.data[3]? ≠ q.data[3]?) : p ++ s ≠ q ++ t := by
  intro he
  apply h
  have hd : p.data ++ s.data = q.data ++ t.data := congrArg String.data he
  calc p.data[3]? = (p.data ++ s.data)[3]? := (List.getElem?_append_left hp).symm
    _ = (q.data ++ t.data)[3]? := by rw [hd]
    _ = q.data[3]? := List.getElem?_append_left hq

theorem heat_ne_cold (a b : ℚ) : heatWarning a ≠ coldWarning b :=
  append_ne_of_char3 _ _ _ _ (by decide) (by decide) (by decide)

theorem heat_ne_diff (a b : ℚ) : heatWarning a ≠ diffWarning b :=
  append_ne_of_char3 _ _ _ _ (by decide) (by decide) (by decide)

theorem heat_ne_rain (a b : ℚ) : heatWarning a ≠ rainWarning b :=
  append_ne_of_char3 _ _ _ _ (by decide) (by decide) (by decide)

theorem heat_ne_swing (a b : ℚ) : heatWarning a ≠ swingWarning b :=
  append_ne_of_char3 _ _ _ _ (by decide) (by decide) (by decide)

theorem cold_ne_diff (a b : ℚ) : coldWarning a ≠ diffWarning b :=
  append_ne_of_char3 _ _ _ _ (by decide) (by decide) (by decide)

theorem cold_ne_rain (a b : ℚ) : coldWarning a ≠ rainWarning b :=
  append_ne_of_char3 _ _ _ _ (by decide) (by decide) (by decide)

theorem cold_ne_swing (a b : ℚ) : coldWarning a ≠ swingWarning b :=
  append_ne_of_char3 _ _ _ _ (by decide) (by decide) (by decide)

theorem diff_ne_rain (a b : ℚ) : diffWarning a ≠ rainWarning b :=
  append_ne_of_char3 _ _ _ _ (by decide) (by decide) (by decide)

theorem diff_ne_swing (a b : ℚ) : diffWarning a ≠ swingWarning b :=
  append_ne_of_char3 _ _ _ _ (by decide) (by decide) (by decide)

theorem rain_ne_swing (a b : ℚ) : rainWarning a ≠ swingWarning b :=
  append_ne_of_char3 _ _ _ _ (by decide) (by decide) (by decide)

/-- The clothing rule raises exactly on the malformed-format branch
(`temp_diff ≥ 12` and `temp_max ≥ 20`, source line 231). -/
theorem get_clothing_suggestion_error_iff (tmax tmin ap : ℚ) :
    (∃ e, get_clothing_suggestion tmax tmin ap = .error e) ↔
      (12 ≤ tmax - tmin ∧ 20 ≤ tmax) := by
  unfold get_clothing_suggestion
  by_cases h1 : 12 ≤ tmax - tmin
  · by_cases h2 : 20 ≤ tmax
    · simp [ge_iff_le, h1, h2]
    · simp [ge_iff_le, h1, h2]
  · by_cases h3 : 8 ≤ tmax - tmin
    · simp [ge_iff_le, h1, h3]
    · simp [ge_iff_le, h1, h3]

/-- Off the malformed branch the clothing rule produces text. -/
theorem get_clothing_suggestion_ok (tmax tmin ap : ℚ)
    (h : ¬(12 ≤ tmax - tmin ∧ 20 ≤ tmax)) :
    ∃ s, get_clothing_suggestion tmax tmin ap = .ok s := by
  rcases hc : get_clothing_suggestion tmax tmin ap with e | s
  · exact absurd ((get_clothing_suggestion_error_iff tmax tmin ap).mp ⟨e, hc⟩) h
  · exact ⟨s, rfl⟩

/-- On the malformed branch the clothing rule raises `ValueError`. -/
theorem get_clothing_suggestion_eq_error (tmax tmin ap : ℚ)
    (h12 : 12 ≤ tmax - tmin) (h20 : 20 ≤ tmax) :
    get_clothing_suggestion tmax tmin ap =
      .error "ValueError: Format specifier missing precision" := by
  unfold get_clothing_suggestion
  simp [ge_iff_le, h12, h20]

/-- Forward form of `_generate_suggestions`: the clothing computation mapped
into the suggestion record. -/
theorem generate_suggestions_eq (t : Forecast) (tt : TempTrend)
    (c : Option ComfortAnalysis) (M m : ℚ)
    (hM : t.temp_max = some M) (hm : t.temp_min = some m) :
    generate_suggestions t tt c =
      (get_clothing_suggestion M m
          (match c with | some ca => ca.apparent_temp | none => M)).map
        (fun clothing => ⟨clothing,
          get_activity_suggestion (t.weather.getD "")
            (match c with | some ca => ca.comfort_level | none => "")
            (t.precipitation_probability.getD 0),
          get_health_suggestion (tt.trendD "") M m⟩) := by
  rcases hc : get_clothing_suggestion M m
      (match c with | some ca => ca.apparent_temp | none => M) with e | str <;>
    simp [generate_suggestions, getKey, hM, hm, hc, Except.map]

/-- Forward form of `_generate_simple_report`. -/
theorem generate_simple_report_eq (t : Forecast) (M m : ℚ)
    (hM : t.temp_max = some M) (hm : t.temp_min = some m) :
    generate_simple_report t =
      (get_clothing_suggestion M m M).map
        (fun clothing => ⟨t, .simpleOnly "暂无历史数据对比", none, none, [],
          ⟨clothing, "暂无建议", "注意关注天气变化"⟩⟩) := by
  rcases hc : get_clothing_suggestion M m M with e | str <;>
    simp [generate_simple_report, getKey, hM, hm, hc, Except.map]

/-- Forward evaluation of `_analyze_temperature_trend` when no historical
record carries `temp_max`: the empty dict is returned. -/
theorem analyze_temperature_trend_eq_empty (cfg : AnalysisConfig) (t : Forecast)
    (hist : List Forecast) (hmax : hist.filterMap (·.temp_max) = []) :
    analyze_temperature_trend cfg t hist = .ok .empty := by
  simp [analyze_temperature_trend, hmax]

/-- Forward evaluation of `_analyze_temperature_trend` when some historical
record carries `temp_max` but none carries `temp_min`: `statistics.mean` is
called on an empty list and raises. -/
theorem analyze_temperature_trend_statistics_error (cfg : AnalysisConfig)
    (t : Forecast) (hist : List Forecast)
    (hmax : hist.filterMap (·.temp_max) ≠ []) (hmin : hist.filterMap (·.temp_min) = []) :
    analyze_temperature_trend cfg t hist =
      .error "StatisticsError: mean requires at least one data point" := by
  simp [analyze_temperature_trend, pyMean, List.isEmpty_iff, hmax, hmin]

/-- Forward evaluation of `_analyze_temperature_trend` on the full path. -/
theorem analyze_temperature_trend_eq_full (cfg : AnalysisConfig) (t : Forecast)
    (hist : List Forecast) (M m : ℚ)
    (hM : t.temp_max = some M) (hm : t.temp_min = some m)
    (hmax : hist.filterMap (·.temp_max) ≠ []) (hmin : hist.filterMap (·.temp_min) ≠ []) :
    analyze_temperature_trend cfg t hist =
      .ok (.full
        (if |M - (hist.filterMap (·.temp_max)).sum / (hist.filterMap (·.temp_max)).length| >
            cfg.tempChangeThreshold then
          (if M - (hist.filterMap (·.temp_max)).sum / (hist.filterMap (·.temp_max)).length > 0
            then "显著升温" else "显著降温")
        else if |M - (hist.filterMap (·.temp_max)).sum /
            (hist.filterMap (·.temp_max)).length| > 3/2 then
          (if M - (hist.filterMap (·.temp_max)).sum / (hist.filterMap (·.temp_max)).length > 0
            then "小幅升温" else "小幅降温")
        else "稳定")
        (round1 (M - (hist.filterMap (·.temp_max)).sum / (hist.filterMap (·.temp_max)).length))
        (round1 (m - (hist.filterMap (·.temp_min)).sum / (hist.filterMap (·.temp_min)).length))
        (round1 ((hist.filterMap (·.temp_max)).sum / (hist.filterMap (·.temp_max)).length))
        (round1 ((hist.filterMap (·.temp_min)).sum / (hist.filterMap (·.temp_min)).length))
        (round1 (M - m))
        (round1 ((hist.filterMap (·.temp_max)).sum / (hist.filterMap (·.temp_max)).length -
          (hist.filterMap (·.temp_min)).sum / (hist.filterMap (·.temp_min)).length))
        (if (if 1 < (hist.filterMap (·.temp_max)).length then
            sampleVar (hist.filterMap (·.temp_max)) else 0) > 25 then "high" else "normal")
        (if 1 < (hist.filterMap (·.temp_max)).length then
          sampleVar (hist.filterMap (·.temp_max)) else 0)) := by
  simp [analyze_temperature_trend, pyMean, List.isEmpty_iff, hmax, hmin, getKey, hM, hm]

/-- Forward evaluation of `_analyze_comfort` when both temperatures are present. -/
theorem analyze_comfort_eq_ok (t : Forecast) (M m : ℚ)
    (hM : t.temp_max = some M) (hm : t.temp_min = some m) :
    analyze_comfort t =
      .ok ⟨round1 (if M > 25 then M + (t.humidity.getD 50 - 50) * (1/10) else M),
        (if 18 ≤ (if M > 25 then M + (t.humidity.getD 50 - 50) * (1/10) else M) ∧
            (if M > 25 then M + (t.humidity.getD 50 - 50) * (1/10) else M) ≤ 26 then "舒适"
        else if (15 ≤ (if M > 25 then M + (t.humidity.getD 50 - 50) * (1/10) else M) ∧
              (if M > 25 then M + (t.humidity.getD 50 - 50) * (1/10) else M) < 18) ∨
            (26 < (if M > 25 then M + (t.humidity.getD 50 - 50) * (1/10) else M) ∧
              (if M > 25 then M + (t.humidity.getD 50 - 50) * (1/10) else M) ≤ 30) then "较舒适"
        else if (if M > 25 then M + (t.humidity.getD 50 - 50) * (1/10) else M) < 15 then "偏冷"
        else "偏热"),
        t.humidity.getD 50, M - m⟩ := by
  simp [analyze_comfort, getKey, hM, hm]

/-- Forward composition of `analyze_weather_trend` on a non-empty history from
the results of its four sub-analyses. -/
theorem analyze_weather_trend_eq_ok (cfg : AnalysisConfig) (t : Forecast)
    (hist : List Forecast) (tt : TempTrend) (ca : ComfortAnalysis) (ww : List String)
    (sg : Suggestions) (hne : hist.isEmpty = false)
    (h1 : analyze_temperature_trend cfg t hist = .ok tt)
    (h2 : analyze_comfort t = .ok ca)
    (h3 : check_warnings cfg t hist = .ok ww)
    (h4 : generate_suggestions t tt (some ca) = .ok sg) :
    analyze_weather_trend cfg t hist =
      .ok ⟨t, tt, some (analyze_precipitation t hist), some ca, ww, sg⟩ := by
  simp [analyze_weather_trend, hne, h1, h2, h3, h4]

/-- Forward evaluation of `_check_warnings` when both temperatures are present. -/
theorem check_warnings_eq_ok (cfg : AnalysisConfig) (t : Forecast)
    (hist : List Forecast) (M m : ℚ)
    (hM : t.temp_max = some M) (hm : t.temp_min = some m) :
    check_warnings cfg t hist =
      .ok ((if M ≥ cfg.hotWarningTemp then [heatWarning M] else []) ++
        (if m ≤ cfg.coldWarningTemp then [coldWarning m] else []) ++
        (if M - m > cfg.tempDiffThreshold then [diffWarning (M - m)] else []) ++
        (if t.precipitation_probability.getD 0 > 70 then
          [rainWarning (t.precipitation_probability.getD 0)] else []) ++
        (match hist with
          | [] => []
          | last_day :: _ =>
            if |M - last_day.temp_max.getD M| > 8 then
              [swingWarning (M - last_day.temp_max.getD M)] else [])) := by
  simp [check_warnings, getKey, hM, hm]

/-- C1: the claimed degenerate analysis is the code's clear intent, and the
code delivers exactly it whenever the clothing rule produces text (first
conjunct: trend label "暂无历史数据对比", no warnings, clothing from
temp_min/temp_max alone); but the code has a slip: for a forecast such as
temp_max 25 / temp_min 10 the malformed f-string format spec
`{temp_max:. 0f}` (line 231) raises `ValueError`, so `analyze` fails there
instead of returning the degenerate analysis (second conjunct, the failing
input). -/
theorem C1_empty_history_degenerate_vs_bug :
    (∀ (cfg : AnalysisConfig) (t : Forecast) (M m : ℚ) (s : String),
      t.temp_max = some M → t.temp_min = some m →
      get_clothing_suggestion M m M = .ok s →
      analyze_weather_trend cfg t [] =
        .ok ⟨t, .simpleOnly "暂无历史数据对比", none, none, [],
          ⟨s, "暂无建议", "注意关注天气变化"⟩⟩) ∧
    analyze_weather_trend ⟨none, none, none, none⟩
      ⟨"2024-05-01", some 25, some 10, none, none, none, none⟩ [] =
      .error "ValueError: Format specifier missing precision" := by
  constructor
  · intro cfg t M m str hM hm hs
    have hred : analyze_weather_trend cfg t [] = generate_simple_report t := rfl
    rw [hred, generate_simple_report_eq t M m hM hm, hs]
    rfl
  · have hred : analyze_weather_trend ⟨none, none, none, none⟩
        ⟨"2024-05-01", some 25, some 10, none, none, none, none⟩ [] =
        generate_simple_report
          ⟨"2024-05-01", some 25, some 10, none, none, none, none⟩ := rfl
    rw [hred, generate_simple_report_eq _ 25 10 rfl rfl,
      get_clothing_suggestion_eq_error 25 10 25 (by norm_num) (by norm_num)]
    rfl

/-- C1 witness: a forecast off the malformed branch (20/12) does get the
degenerate analysis, with the clothing text from its temperatures alone. -/
theorem C1_empty_history_degenerate_vs_bug_witness :
    ∃ s, get_clothing_suggestion 20 12 20 = .ok s ∧
      analyze_weather_trend ⟨none, none, none, none⟩
        ⟨"2024-05-01", some 20, some 12, some "雨", some 90, some 80, some "3级"⟩ [] =
        .ok ⟨⟨"2024-05-01", some 20, some 12, some "雨", some 90, some 80, some "3级"⟩,
          .simpleOnly "暂无历史数据对比", none, none, [],
          ⟨s, "暂无建议", "注意关注天气变化"⟩⟩ := by
  obtain ⟨s, hs⟩ : ∃ s, get_clothing_suggestion 20 12 20 = .ok s :=
    ⟨_, by with_unfolding_all rfl⟩
  exact ⟨s, hs, C1_empty_history_degenerate_vs_bug.1 _ _ 20 12 s rfl rfl hs⟩

/-- Apparent temperature exactly as the claim words it: `temp_max` when
`temp_max ≤ 25`, else `temp_max + (humidity − 50) × 0.1`. -/
def specApparentTemp (tmax humidity : ℚ) : ℚ :=
  if tmax ≤ 25 then tmax else tmax + (humidity - 50) * (1/10)

/-- Comfort label exactly as the claim words it, by apparent-temperature
ranges ("舒适" = comfortable, "较舒适" = fairly comfortable, "偏冷" = cold,
"偏热" = hot). -/
def specComfortLabel (a : ℚ) : String :=
  if 18 ≤ a ∧ a ≤ 26 then "舒适"
  else if (15 ≤ a ∧ a < 18) ∨ (26 < a ∧ a ≤ 30) then "较舒适"
  else if a < 15 then "偏冷"
  else "偏热"

/-- C3: `_analyze_comfort` computes the apparent temperature and comfort label
exactly as the claim describes (humidity defaulting to 50 when absent;
boundaries 18.0 → comfortable and 30.0 → fairly comfortable included). -/
theorem C3_comfort_classification (t : Forecast) (M m : ℚ)
    (hM : t.temp_max = some M) (hm : t.temp_min = some m) :
    analyze_comfort t =
      .ok ⟨round1 (specApparentTemp M (t.humidity.getD 50)),
        specComfortLabel (specApparentTemp M (t.humidity.getD 50)),
        t.humidity.getD 50, M - m⟩ := by
  rcases le_or_lt M 25 with h | h
  · simp [analyze_comfort, getKey, hM, hm, specApparentTemp, specComfortLabel,
      not_lt.2 h, h]
  · simp [analyze_comfort, getKey, hM, hm, specApparentTemp, specComfortLabel,
      h, not_le.2 h]

set_option maxRecDepth 2000 in
/-- C3 witness at the upper boundary: apparent temperature exactly 30.0
(temp_max 30, humidity absent so defaulted to 50) classifies as "较舒适"
(fairly comfortable), not "偏热" (hot). -/
theorem C3_comfort_classification_witness :
    analyze_comfort ⟨"2024-05-01", some 30, some 20, none, none, none, none⟩ =
      .ok ⟨30, "较舒适", 50, 10⟩ := by
  have h := C3_comfort_classification
    ⟨"2024-05-01", some 30, some 20, none, none, none, none⟩ 30 20 rfl rfl
  rw [h]
  have e1 : specApparentTemp 30
      ((Forecast.mk "2024-05-01" (some 30) (some 20) none none none none).humidity.getD 50) =
      30 := by with_unfolding_all decide
  rw [e1]
  have e2 : round1 (30 : ℚ) = 30 := by with_unfolding_all decide
  have e3 : specComfortLabel (30 : ℚ) = "较舒适" := by with_unfolding_all decide
  have e4 : (30 : ℚ) - 20 = 10 := by with_unfolding_all decide
  rw [e2, e3, e4]
  rfl

/-- The clothing rule never reads its `apparent_temp` argument. -/
theorem get_clothing_suggestion_apparent_irrelevant (tmax tmin a b : ℚ) :
    get_clothing_suggestion tmax tmin a = get_clothing_suggestion tmax tmin b := rfl

/-- Any successful analysis carries the clothing text produced by
`get_clothing_suggestion` from tomorrow's temperatures alone (the unused third
argument normalized to `temp_max`). -/
theorem analyze_clothing_eq (cfg : AnalysisConfig) (t : Forecast) (hist : List Forecast)
    (a : Analysis) (M m : ℚ) (hM : t.temp_max = some M) (hm : t.temp_min = some m)
    (h : analyze_weather_trend cfg t hist = .ok a) :
    get_clothing_suggestion M m M = .ok a.suggestions.clothing := by
  rcases hist with _ | ⟨r0, rest⟩
  · have hred : analyze_weather_trend cfg t [] = generate_simple_report t := rfl
    rw [hred, generate_simple_report_eq t M m hM hm] at h
    rcases hc : get_clothing_suggestion M m M with e | str <;> rw [hc] at h
    · simp [Except.map] at h
    · simp only [Except.map, Except.ok.injEq] at h
      subst h
      rfl
  · obtain ⟨tt, h1⟩ : ∃ tt, analyze_temperature_trend cfg t (r0 :: rest) = .ok tt := by
      by_cases hmax : (r0 :: rest).filterMap (·.temp_max) = []
      · exact ⟨_, analyze_temperature_trend_eq_empty cfg t _ hmax⟩
      · by_cases hmin : (r0 :: rest).filterMap (·.temp_min) = []
        · exfalso
          have herr : analyze_weather_trend cfg t (r0 :: rest) =
              .error "StatisticsError: mean requires at least one data point" := by
            simp [analyze_weather_trend,
              analyze_temperature_trend_statistics_error cfg t _ hmax hmin]
          simp [herr] at h
        · exact ⟨_, analyze_temperature_trend_eq_full cfg t _ M m hM hm hmax hmin⟩
    obtain ⟨ca, h2⟩ : ∃ ca, analyze_comfort t = .ok ca :=
      ⟨_, analyze_comfort_eq_ok t M m hM hm⟩
    obtain ⟨ww, h3⟩ : ∃ ww, check_warnings cfg t (r0 :: rest) = .ok ww :=
      ⟨_, check_warnings_eq_ok cfg t (r0 :: rest) M m hM hm⟩
    have hsg := generate_suggestions_eq t tt (some ca) M m hM hm
    rw [get_clothing_suggestion_apparent_irrelevant M m _ M] at hsg
    rcases hc : get_clothing_suggestion M m M with e | str <;> rw [hc] at hsg
    · have herr : analyze_weather_trend cfg t (r0 :: rest) = .error e := by
        simp [analyze_weather_trend, h1, h2, h3, hsg, Except.map]
      simp [herr] at h
    · simp only [Except.map] at hsg
      rw [analyze_weather_trend_eq_ok cfg t (r0 :: rest) tt ca ww _ rfl h1 h2 h3 hsg] at h
      simp only [Except.ok.injEq] at h
      subst h
      rfl

/-- C9: for any two forecasts that agree on temp_max and temp_min, any two
histories and any two configurations, successful analyses carry identical
clothing suggestion texts — the clothing text is a function of
(temp_min, temp_max) only, independent of humidity, weather description,
precipitation probability and wind. -/
theorem C9_clothing_depends_only_on_temps (cfg1 cfg2 : AnalysisConfig)
    (t1 t2 : Forecast) (hist1 hist2 : List Forecast) (a1 a2 : Analysis) (M m : ℚ)
    (h1M : t1.temp_max = some M) (h1m : t1.temp_min = some m)
    (h2M : t2.temp_max = some M) (h2m : t2.temp_min = some m)
    (e1 : analyze_weather_trend cfg1 t1 hist1 = .ok a1)
    (e2 : analyze_weather_trend cfg2 t2 hist2 = .ok a2) :
    a1.suggestions.clothing = a2.suggestions.clothing := by
  exact Except.ok.inj
    ((analyze_clothing_eq cfg1 t1 hist1 a1 M m h1M h1m e1).symm.trans
      (analyze_clothing_eq cfg2 t2 hist2 a2 M m h2M h2m e2))

set_option maxRecDepth 2000 in
/-- C9 witness: two forecasts sharing (temp_max, temp_min) = (20, 12) but
differing in weather, humidity, precipitation and wind produce the same
clothing text. -/
theorem C9_clothing_depends_only_on_temps_witness :
    ((analyze_weather_trend ⟨none, none, none, none⟩
        ⟨"2024-05-01", some 20, some 12, some "小雨", some 90, some 80, some "5级"⟩
        [⟨"2024-04-30", some 28, some 16, some "晴", some 30, some 0, some "2级"⟩]).map
      (fun a => a.suggestions.clothing)) =
    ((analyze_weather_trend ⟨some 1, some 30, some 0, some 20⟩
        ⟨"2024-06-01", some 20, some 12, none, none, none, none⟩ []).map
      (fun a => a.suggestions.clothing)) := by
  obtain ⟨a1, e1⟩ : ∃ a, analyze_weather_trend ⟨none, none, none, none⟩
      ⟨"2024-05-01", some 20, some 12, some "小雨", some 90, some 80, some "5级"⟩
      [⟨"2024-04-30", some 28, some 16, some "晴", some 30, some 0, some "2级"⟩] = .ok a :=
    ⟨_, by with_unfolding_all rfl⟩
  obtain ⟨a2, e2⟩ : ∃ a, analyze_weather_trend ⟨some 1, some 30, some 0, some 20⟩
      ⟨"2024-06-01", some 20, some 12, none, none, none, none⟩ [] = .ok a :=
    ⟨_, by with_unfolding_all rfl⟩
  rw [e1, e2]
  exact congrArg Except.ok
    (C9_clothing_depends_only_on_temps _ _ _ _ _ _ a1 a2 20 12 rfl rfl rfl rfl e1 e2)

/-- C10: when the most-recent historical record lacks `temp_max`, the abrupt
day-over-day change warning can never fire — the code substitutes tomorrow's
own `temp_max`, making the computed change zero — so the warning list consists
of exactly the (firing subset of the) other four warnings, whatever
tomorrow's temperatures are. -/
theorem C10_missing_recent_temp_max_disables_swing (cfg : AnalysisConfig)
    (t r : Forecast) (rest : List Forecast) (M m : ℚ)
    (hM : t.temp_max = some M) (hm : t.temp_min = some m)
    (hr : r.temp_max = none) :
    check_warnings cfg t (r :: rest) =
      .ok ((if M ≥ cfg.hotWarningTemp then [heatWarning M] else []) ++
        (if m ≤ cfg.coldWarningTemp then [coldWarning m] else []) ++
        (if M - m > cfg.tempDiffThreshold then [diffWarning (M - m)] else []) ++
        (if t.precipitation_probability.getD 0 > 70 then
          [rainWarning (t.precipitation_probability.getD 0)] else [])) := by
  simp [check_warnings, getKey, hM, hm, hr, sub_self]

/-- C10 witness: tomorrow at 40/−1 with 80% rain and a huge swing versus the
(temp_max-less) most recent day still yields only the four base warnings. -/
theorem C10_missing_recent_temp_max_disables_swing_witness :
    check_warnings ⟨none, none, none, none⟩
      ⟨"2024-05-01", some 40, some (-1), none, none, some 80, none⟩
      [⟨"2024-04-30", none, some 17, none, none, none, none⟩] =
      .ok ((if (40 : ℚ) ≥ (AnalysisConfig.mk none none none none).hotWarningTemp then
          [heatWarning 40] else []) ++
        (if (-1 : ℚ) ≤ (AnalysisConfig.mk none none none none).coldWarningTemp then
          [coldWarning (-1)] else []) ++
        (if (40 : ℚ) - (-1) > (AnalysisConfig.mk none none none none).tempDiffThreshold then
          [diffWarning (40 - (-1))] else []) ++
        (if (Forecast.mk "2024-05-01" (some 40) (some (-1)) none none (some 80)
            none).precipitation_probability.getD 0 > 70 then
          [rainWarning ((Forecast.mk "2024-05-01" (some 40) (some (-1)) none none (some 80)
            none).precipitation_probability.getD 0)] else [])) :=
  C10_missing_recent_temp_max_disables_swing ⟨none, none, none, none⟩ _ _ _ 40 (-1)
    rfl rfl rfl

/-- C2: with both temperatures present (and the most recent historical record
carrying `temp_max` when history is non-empty), `_check_warnings` returns
exactly the firing warnings, in the fixed evaluation order heat, cold,
diurnal-range, rain, day-over-day swing; each of the five fires precisely
when its condition holds, the list has no duplicates, and it has at most
five entries. -/
theorem C2_warnings_fire_in_order (cfg : AnalysisConfig) (t : Forecast)
    (hist : List Forecast) (M m : ℚ)
    (hM : t.temp_max = some M) (hm : t.temp_min = some m)
    (hhd : ∀ r, hist.head? = some r → ∃ v, r.temp_max = some v) :
    ∃ ws, check_warnings cfg t hist = .ok ws ∧
      ws = (if M ≥ cfg.hotWarningTemp then [heatWarning M] else []) ++
        (if m ≤ cfg.coldWarningTemp then [coldWarning m] else []) ++
        (if M - m > cfg.tempDiffThreshold then [diffWarning (M - m)] else []) ++
        (if t.precipitation_probability.getD 0 > 70 then
          [rainWarning (t.precipitation_probability.getD 0)] else []) ++
        (match hist.head?.bind (·.temp_max) with
          | none => []
          | some v => if |M - v| > 8 then [swingWarning (M - v)] else []) ∧
      ws.Nodup ∧ ws.length ≤ 5 := by
  rcases hist with _ | ⟨r, rest⟩
  · refine ⟨_, ?_, rfl, ?_, ?_⟩
    · simp [check_warnings, getKey, hM, hm]
    · simp only [List.head?_nil, Option.bind_none, List.append_nil]
      split_ifs <;>
        simp_all [heat_ne_cold, heat_ne_diff, heat_ne_rain, cold_ne_diff, cold_ne_rain,
          diff_ne_rain]
    · simp only [List.head?_nil, Option.bind_none, List.append_nil]
      split_ifs <;> simp_all
  · obtain ⟨v, hv⟩ := hhd r rfl
    refine ⟨_, ?_, rfl, ?_, ?_⟩
    · simp [check_warnings, getKey, hM, hm, hv]
    · simp only [List.head?_cons, Option.some_bind, hv]
      split_ifs <;>
        simp_all [heat_ne_cold, heat_ne_diff, heat_ne_rain, heat_ne_swing, cold_ne_diff,
          cold_ne_rain, cold_ne_swing, diff_ne_rain, diff_ne_swing, rain_ne_swing]
    · simp only [List.head?_cons, Option.some_bind, hv]
      split_ifs <;> simp_all

/-- C2 witness: tomorrow 36/4 with 80% rain after a 27°C day fires all five
warnings; the returned list is duplicate-free with at most five entries. -/
theorem C2_warnings_fire_in_order_witness :
    ∃ ws, check_warnings ⟨none, none, none, none⟩
        ⟨"2024-07-01", some 36, some 4, some "雷阵雨", some 70, some 80, some "4级"⟩
        [⟨"2024-06-30", some 27, some 20, some "晴", some 50, some 10, some "2级"⟩] =
        .ok ws ∧ ws.Nodup ∧ ws.length ≤ 5 := by
  obtain ⟨ws, h1, _, h3, h4⟩ := C2_warnings_fire_in_order ⟨none, none, none, none⟩
    ⟨"2024-07-01", some 36, some 4, some "雷阵雨", some 70, some 80, some "4级"⟩
    [⟨"2024-06-30", some 27, some 20, some "晴", some 50, some 10, some "2级"⟩]
    36 4 rfl rfl (fun r hr => (Option.some.inj hr) ▸ ⟨27, rfl⟩)
  exact ⟨ws, h1, h3, h4⟩

/-- Trend label exactly as the claim words it, classified from the UNROUNDED
delta ("显著升温/降温" = significant rise/fall, "小幅升温/降温" = slight
rise/fall, "稳定" = stable). -/
def specTrendLabel (threshold delta : ℚ) : String :=
  if |delta| > threshold then (if delta > 0 then "显著升温" else "显著降温")
  else if |delta| > 3/2 then (if delta > 0 then "小幅升温" else "小幅降温")
  else "稳定"

/-- C4: for a history providing at least one `temp_max`, the trend label
returned by `_analyze_temperature_trend` is `specTrendLabel` of the UNROUNDED
delta = tomorrow.temp_max − mean of the historical `temp_max` values, with
threshold `temp_change_threshold` (default 3) and moderate threshold 1.5,
while the reported `max_temp_change` field is the delta rounded to 1 decimal
place — rounding affects only the reported fields, never the comparison. -/
theorem C4_trend_label_from_unrounded_delta (cfg : AnalysisConfig) (t : Forecast)
    (hist : List Forecast) (tt : TempTrend) (M m : ℚ)
    (hM : t.temp_max = some M) (hm : t.temp_min = some m)
    (hmax : hist.filterMap (·.temp_max) ≠ [])
    (h : analyze_temperature_trend cfg t hist = .ok tt) :
    tt.trendD "" = specTrendLabel cfg.tempChangeThreshold
        (M - (hist.filterMap (·.temp_max)).sum / (hist.filterMap (·.temp_max)).length) ∧
    tt.maxChangeD 0 = round1
        (M - (hist.filterMap (·.temp_max)).sum / (hist.filterMap (·.temp_max)).length) := by
  by_cases hmin : hist.filterMap (·.temp_min) = []
  · rw [analyze_temperature_trend_statistics_error cfg t hist hmax hmin] at h
    exact absurd h (by simp)
  · rw [analyze_temperature_trend_eq_full cfg t hist M m hM hm hmax hmin] at h
    simp only [Except.ok.injEq] at h
    subst h
    exact ⟨rfl, rfl⟩

set_option maxRecDepth 2000 in
/-- C4 witness: with history mean 20 and tomorrow 23.04, the unrounded delta
3.04 exceeds the default threshold 3 (label "显著升温") even though the
reported rounded change is exactly 3.0, which would not. -/
theorem C4_trend_label_from_unrounded_delta_witness :
    ∃ tt, analyze_temperature_trend ⟨none, none, none, none⟩
        ⟨"2024-05-01", some (576/25), some 15, none, none, none, none⟩
        [⟨"2024-04-30", some 20, some 12, none, none, none, none⟩] = .ok tt ∧
      tt.trendD "" = "显著升温" ∧ tt.maxChangeD 0 = 3 := by
  obtain ⟨tt, h⟩ : ∃ tt, analyze_temperature_trend ⟨none, none, none, none⟩
      ⟨"2024-05-01", some (576/25), some 15, none, none, none, none⟩
      [⟨"2024-04-30", some 20, some 12, none, none, none, none⟩] = .ok tt :=
    ⟨_, by with_unfolding_all rfl⟩
  have hc := C4_trend_label_from_unrounded_delta ⟨none, none, none, none⟩
    ⟨"2024-05-01", some (576/25), some 15, none, none, none, none⟩
    [⟨"2024-04-30", some 20, some 12, none, none, none, none⟩] tt (576/25) 15
    rfl rfl (by simp) h
  exact ⟨tt, h, hc.1.trans (by with_unfolding_all decide),
    hc.2.trans (by with_unfolding_all decide)⟩

/-- C5: the claimed partial-failure tolerance is the code's clear intent, and
the code does deliver it: a historical record lacking `temp_max` (resp.
`temp_min`) is excluded from the per-field list feeding the `temp_max`
(resp. `temp_min`) mean/variance, and off the malformed clothing branch the
analysis completes with a full temperature trend (first conjunct).  But the
code has a slip: for a tomorrow such as 30/10, the malformed f-string format
spec `{temp_max:. 0f}` (line 231) raises `ValueError`, so for that forecast
`analyze` aborts even though the malformed historical record itself was
tolerated (second conjunct, the failing input). -/
theorem C5_malformed_record_excluded_vs_bug :
    (∀ (cfg : AnalysisConfig) (t r : Forecast) (pre post : List Forecast) (M m : ℚ),
      t.temp_max = some M → t.temp_min = some m →
      (pre ++ post).filterMap (·.temp_max) ≠ [] →
      (pre ++ post).filterMap (·.temp_min) ≠ [] →
      ¬(12 ≤ M - m ∧ 20 ≤ M) →
      (r.temp_max = none →
        (pre ++ r :: post).filterMap (·.temp_max) =
          (pre ++ post).filterMap (·.temp_max)) ∧
      (r.temp_min = none →
        (pre ++ r :: post).filterMap (·.temp_min) =
          (pre ++ post).filterMap (·.temp_min)) ∧
      ((r.temp_max = none ∨ r.temp_min = none) →
        ∃ a, analyze_weather_trend cfg t (pre ++ r :: post) = .ok a ∧
          a.temperature_trend ≠ .empty)) ∧
    analyze_weather_trend ⟨none, none, none, none⟩
      ⟨"2024-05-01", some 30, some 10, none, none, none, none⟩
      [Forecast.mk "d3" (some 22) (some 14) none none none none,
        Forecast.mk "d2" none (some 13) none none none none,
        Forecast.mk "d1" (some 18) (some 10) none none none none] =
      .error "ValueError: Format specifier missing precision" := by
  constructor
  · intro cfg t r pre post M m hM hm hmax hmin hnb
    have hfm : r.temp_max = none →
        (pre ++ r :: post).filterMap (·.temp_max) =
          (pre ++ post).filterMap (·.temp_max) := fun hr => by
      simp [List.filterMap_append, List.filterMap_cons, hr]
    have hfn : r.temp_min = none →
        (pre ++ r :: post).filterMap (·.temp_min) =
          (pre ++ post).filterMap (·.temp_min) := fun hr => by
      simp [List.filterMap_append, List.filterMap_cons, hr]
    refine ⟨hfm, hfn, fun _ => ?_⟩
    have hmaxs : (pre ++ r :: post).filterMap (·.temp_max) ≠ [] := by
      rcases hrm : r.temp_max with _ | v
      · rw [hfm hrm]; exact hmax
      · simp [List.filterMap_append, List.filterMap_cons, hrm]
    have hmins : (pre ++ r :: post).filterMap (·.temp_min) ≠ [] := by
      rcases hrm : r.temp_min with _ | v
      · rw [hfn hrm]; exact hmin
      · simp [List.filterMap_append, List.filterMap_cons, hrm]
    have hne : (pre ++ r :: post).isEmpty = false := by
      simp [List.isEmpty_iff]
    have h1 := analyze_temperature_trend_eq_full cfg t (pre ++ r :: post) M m hM hm
      hmaxs hmins
    obtain ⟨tt, h1t⟩ : ∃ tt, analyze_temperature_trend cfg t (pre ++ r :: post) = .ok tt :=
      ⟨_, h1⟩
    have htt : tt ≠ .empty := by
      have hbig := h1.symm.trans h1t
      simp only [Except.ok.injEq] at hbig
      rw [← hbig]
      simp
    obtain ⟨ca, h2o⟩ : ∃ ca, analyze_comfort t = .ok ca := ⟨_, analyze_comfort_eq_ok t M m hM hm⟩
    obtain ⟨ww, h3o⟩ : ∃ ww, check_warnings cfg t (pre ++ r :: post) = .ok ww :=
      ⟨_, check_warnings_eq_ok cfg t (pre ++ r :: post) M m hM hm⟩
    obtain ⟨str, hstr⟩ := get_clothing_suggestion_ok M m M hnb
    have hsg := generate_suggestions_eq t tt (some ca) M m hM hm
    rw [get_clothing_suggestion_apparent_irrelevant M m _ M, hstr] at hsg
    simp only [Except.map] at hsg
    exact ⟨_, analyze_weather_trend_eq_ok cfg t (pre ++ r :: post) tt ca ww _ hne h1t h2o
      h3o hsg, htt⟩
  · have hred : analyze_weather_trend ⟨none, none, none, none⟩
        ⟨"2024-05-01", some 30, some 10, none, none, none, none⟩
        [Forecast.mk "d3" (some 22) (some 14) none none none none,
          Forecast.mk "d2" none (some 13) none none none none,
          Forecast.mk "d1" (some 18) (some 10) none none none none] =
        .error "ValueError: Format specifier missing precision" := by
      with_unfolding_all rfl
    exact hred

/-- C5 witness: history [well-formed, temp_max-less, well-formed] with a
tomorrow off the malformed branch — the middle record is skipped for the max
statistics and the analysis completes. -/
theorem C5_malformed_record_excluded_vs_bug_witness :
    ((Forecast.mk "d2" none (some 13) none none none none).temp_max = none →
      ([Forecast.mk "d3" (some 22) (some 14) none none none none] ++
          Forecast.mk "d2" none (some 13) none none none none ::
          [Forecast.mk "d1" (some 18) (some 10) none none none none]).filterMap
        (·.temp_max) =
        ([Forecast.mk "d3" (some 22) (some 14) none none none none] ++
          [Forecast.mk "d1" (some 18) (some 10) none none none none]).filterMap
          (·.temp_max)) ∧
    ((Forecast.mk "d2" none (some 13) none none none none).temp_min = none →
      ([Forecast.mk "d3" (some 22) (some 14) none none none none] ++
          Forecast.mk "d2" none (some 13) none none none none ::
          [Forecast.mk "d1" (some 18) (some 10) none none none none]).filterMap
        (·.temp_min) =
        ([Forecast.mk "d3" (some 22) (some 14) none none none none] ++
          [Forecast.mk "d1" (some 18) (some 10) none none none none]).filterMap
          (·.temp_min)) ∧
    (((Forecast.mk "d2" none (some 13) none none none none).temp_max = none ∨
        (Forecast.mk "d2" none (some 13) none none none none).temp_min = none) →
      ∃ a, analyze_weather_trend ⟨none, none, none, none⟩
          ⟨"2024-05-01", some 24, some 16, none, none, none, none⟩
          ([Forecast.mk "d3" (some 22) (some 14) none none none none] ++
            Forecast.mk "d2" none (some 13) none none none none ::
            [Forecast.mk "d1" (some 18) (some 10) none none none none]) = .ok a ∧
        a.temperature_trend ≠ .empty) :=
  C5_malformed_record_excluded_vs_bug.1 ⟨none, none, none, none⟩
    ⟨"2024-05-01", some 24, some 16, none, none, none, none⟩
    (Forecast.mk "d2" none (some 13) none none none none)
    [Forecast.mk "d3" (some 22) (some 14) none none none none]
    [Forecast.mk "d1" (some 18) (some 10) none none none none]
    24 16 rfl rfl (by simp) (by simp) (by norm_num)

/-- On the full trend path, a missing tomorrow `temp_max` raises `KeyError`. -/
theorem analyze_temperature_trend_keyerror_max (cfg : AnalysisConfig) (t : Forecast)
    (hist : List Forecast) (hmax : hist.filterMap (·.temp_max) ≠ [])
    (hmin : hist.filterMap (·.temp_min) ≠ []) (hMx : t.temp_max = none) :
    analyze_temperature_trend cfg t hist = .error "KeyError: temp_max" := by
  simp [analyze_temperature_trend, pyMean, List.isEmpty_iff, hmax, hmin, getKey, hMx]

/-- On the full trend path, a missing tomorrow `temp_min` raises `KeyError`. -/
theorem analyze_temperature_trend_keyerror_min (cfg : AnalysisConfig) (t : Forecast)
    (hist : List Forecast) (M : ℚ) (hmax : hist.filterMap (·.temp_max) ≠ [])
    (hmin : hist.filterMap (·.temp_min) ≠ []) (hMx : t.temp_max = some M)
    (hmn : t.temp_min = none) :
    analyze_temperature_trend cfg t hist = .error "KeyError: temp_min" := by
  simp [analyze_temperature_trend, pyMean, List.isEmpty_iff, hmax, hmin, getKey, hMx, hmn]

/-- When the temperature-trend step succeeds and the clothing rule raises,
the whole analysis propagates the clothing error (non-empty history). -/
theorem analyze_error_of_clothing (cfg : AnalysisConfig) (t : Forecast)
    (hist : List Forecast) (M m : ℚ) (e : String)
    (hM : t.temp_max = some M) (hm : t.temp_min = some m)
    (hne : hist.isEmpty = false)
    (htt : ∃ tt, analyze_temperature_trend cfg t hist = .ok tt)
    (hce : get_clothing_suggestion M m M = .error e) :
    analyze_weather_trend cfg t hist = .error e := by
  obtain ⟨tt, h1⟩ := htt
  obtain ⟨ca, h2⟩ : ∃ ca, analyze_comfort t = .ok ca :=
    ⟨_, analyze_comfort_eq_ok t M m hM hm⟩
  obtain ⟨ww, h3⟩ : ∃ ww, check_warnings cfg t hist = .ok ww :=
    ⟨_, check_warnings_eq_ok cfg t hist M m hM hm⟩
  have hsg := generate_suggestions_eq t tt (some ca) M m hM hm
  rw [get_clothing_suggestion_apparent_irrelevant M m _ M, hce] at hsg
  simp only [Except.map] at hsg
  simp [analyze_weather_trend, hne, h1, h2, h3, hsg]

/-- When the temperature-trend step and the clothing rule both succeed, the
whole analysis succeeds (non-empty history). -/
theorem analyze_ok_of_clothing (cfg : AnalysisConfig) (t : Forecast)
    (hist : List Forecast) (M m : ℚ) (str : String)
    (hM : t.temp_max = some M) (hm : t.temp_min = some m)
    (hne : hist.isEmpty = false)
    (htt : ∃ tt, analyze_temperature_trend cfg t hist = .ok tt)
    (hcs : get_clothing_suggestion M m M = .ok str) :
    ∃ a, analyze_weather_trend cfg t hist = .ok a := by
  obtain ⟨tt, h1⟩ := htt
  obtain ⟨ca, h2⟩ : ∃ ca, analyze_comfort t = .ok ca :=
    ⟨_, analyze_comfort_eq_ok t M m hM hm⟩
  obtain ⟨ww, h3⟩ : ∃ ww, check_warnings cfg t hist = .ok ww :=
    ⟨_, check_warnings_eq_ok cfg t hist M m hM hm⟩
  have hsg := generate_suggestions_eq t tt (some ca) M m hM hm
  rw [get_clothing_suggestion_apparent_irrelevant M m _ M, hcs] at hsg
  simp only [Except.map] at hsg
  exact ⟨_, analyze_weather_trend_eq_ok cfg t hist tt ca ww _ hne h1 h2 h3 hsg⟩

/-- `analyze_weather_trend` fails exactly when tomorrow lacks `temp_max` or
`temp_min`, or some historical record carries `temp_max` while no historical
record carries `temp_min` (empty-list `statistics.mean`), or tomorrow hits
the malformed clothing format spec (`temp_diff ≥ 12` and `temp_max ≥ 20`,
source line 231). -/
theorem analyze_error_iff (cfg : AnalysisConfig) (t : Forecast) (hist : List Forecast) :
    (∃ e, analyze_weather_trend cfg t hist = .error e) ↔
      (t.temp_max = none ∨ t.temp_min = none ∨
        (hist.filterMap (·.temp_max) ≠ [] ∧ hist.filterMap (·.temp_min) = []) ∨
        (match t.temp_max, t.temp_min with
          | some M, some m => 12 ≤ M - m ∧ 20 ≤ M
          | _, _ => False)) := by
  rcases hMx : t.temp_max with _ | M
  · rcases hist with _ | ⟨r0, rest⟩
    · simp [analyze_weather_trend, generate_simple_report, getKey, hMx]
    · by_cases hmax : (r0 :: rest).filterMap (·.temp_max) = []
      · rw [analyze_weather_trend]
        simp [analyze_temperature_trend_eq_empty cfg t _ hmax, analyze_comfort, getKey, hMx]
      · by_cases hmin : (r0 :: rest).filterMap (·.temp_min) = []
        · rw [analyze_weather_trend]
          simp [analyze_temperature_trend_statistics_error cfg t _ hmax hmin, hmax, hmin]
        · rw [analyze_weather_trend]
          simp [analyze_temperature_trend_keyerror_max cfg t _ hmax hmin hMx, hMx]
  rcases hmn : t.temp_min with _ | m
  · rcases hist with _ | ⟨r0, rest⟩
    · simp [analyze_weather_trend, generate_simple_report, getKey, hMx, hmn]
    · by_cases hmax : (r0 :: rest).filterMap (·.temp_max) = []
      · rw [analyze_weather_trend]
        simp [analyze_temperature_trend_eq_empty cfg t _ hmax, analyze_comfort, getKey,
          hMx, hmn]
      · by_cases hmin : (r0 :: rest).filterMap (·.temp_min) = []
        · rw [analyze_weather_trend]
          simp [analyze_temperature_trend_statistics_error cfg t _ hmax hmin, hmax, hmin]
        · rw [analyze_weather_trend]
          simp [analyze_temperature_trend_keyerror_min cfg t _ M hmax hmin hMx hmn, hmn]
  · by_cases hbug : 12 ≤ M - m ∧ 20 ≤ M
    · rcases hist with _ | ⟨r0, rest⟩
      · have hred : analyze_weather_trend cfg t [] = generate_simple_report t := rfl
        rw [hred, generate_simple_report_eq t M m hMx hmn,
          get_clothing_suggestion_eq_error M m M hbug.1 hbug.2]
        simp [Except.map, hMx, hmn, hbug]
      · by_cases hmax : (r0 :: rest).filterMap (·.temp_max) = []
        · rw [analyze_error_of_clothing cfg t (r0 :: rest) M m _ hMx hmn rfl
            ⟨_, analyze_temperature_trend_eq_empty cfg t _ hmax⟩
            (get_clothing_suggestion_eq_error M m M hbug.1 hbug.2)]
          simp [hMx, hmn, hbug]
        · by_cases hmin : (r0 :: rest).filterMap (·.temp_min) = []
          · rw [analyze_weather_trend]
            simp [analyze_temperature_trend_statistics_error cfg t _ hmax hmin, hmax, hmin]
          · rw [analyze_error_of_clothing cfg t (r0 :: rest) M m _ hMx hmn rfl
              ⟨_, analyze_temperature_trend_eq_full cfg t _ M m hMx hmn hmax hmin⟩
              (get_clothing_suggestion_eq_error M m M hbug.1 hbug.2)]
            simp [hMx, hmn, hbug]
    · obtain ⟨str, hstr⟩ := get_clothing_suggestion_ok M m M hbug
      rcases hist with _ | ⟨r0, rest⟩
      · have hred : analyze_weather_trend cfg t [] = generate_simple_report t := rfl
        rw [hred, generate_simple_report_eq t M m hMx hmn, hstr]
        simp [Except.map, hMx, hmn, hbug]
      · by_cases hmax : (r0 :: rest).filterMap (·.temp_max) = []
        · obtain ⟨a, ha⟩ := analyze_ok_of_clothing cfg t (r0 :: rest) M m str hMx hmn rfl
            ⟨_, analyze_temperature_trend_eq_empty cfg t _ hmax⟩ hstr
          rw [ha]
          simp [hMx, hmn, hmax, hbug]
        · by_cases hmin : (r0 :: rest).filterMap (·.temp_min) = []
          · rw [analyze_weather_trend]
            simp [analyze_temperature_trend_statistics_error cfg t _ hmax hmin, hmax, hmin]
          · obtain ⟨a, ha⟩ := analyze_ok_of_clothing cfg t (r0 :: rest) M m str hMx hmn rfl
              ⟨_, analyze_temperature_trend_eq_full cfg t _ M m hMx hmn hmax hmin⟩ hstr
            rw [ha]
            simp [hMx, hmn, hmin, hbug]

/-- Every successful analysis substitutes the documented defaults for absent
optional fields: precipitation probability 0, weather description "未知"
(the spec's "unknown"), humidity 50. -/
theorem analyze_ok_defaults (cfg : AnalysisConfig) (t : Forecast) (hist : List Forecast)
    (a : Analysis) (h : analyze_weather_trend cfg t hist = .ok a) :
    (a.precipitation_trend.elim True (fun pt =>
      pt.probability = t.precipitation_probability.getD 0 ∧
      pt.weather_desc = t.weather.getD "未知")) ∧
    (a.comfort_analysis.elim True (fun c => c.humidity = t.humidity.getD 50)) := by
  rcases hist with _ | ⟨r0, rest⟩
  · rcases hMx : t.temp_max with _ | M
    · rw [show analyze_weather_trend cfg t [] = generate_simple_report t from rfl] at h
      simp [generate_simple_report, getKey, hMx] at h
    rcases hmn : t.temp_min with _ | m
    · rw [show analyze_weather_trend cfg t [] = generate_simple_report t from rfl] at h
      simp [generate_simple_report, getKey, hMx, hmn] at h
    · rw [show analyze_weather_trend cfg t [] = generate_simple_report t from rfl,
        generate_simple_report_eq t M m hMx hmn] at h
      rcases hc : get_clothing_suggestion M m M with e | str <;> rw [hc] at h
      · simp [Except.map] at h
      · simp only [Except.map, Except.ok.injEq] at h
        subst h
        simp
  · rcases hMx : t.temp_max with _ | M
    · by_cases hmax : (r0 :: rest).filterMap (·.temp_max) = []
      · rw [analyze_weather_trend] at h
        simp [analyze_temperature_trend_eq_empty cfg t _ hmax, analyze_comfort,
          getKey, hMx] at h
      · by_cases hmin : (r0 :: rest).filterMap (·.temp_min) = []
        · rw [analyze_weather_trend] at h
          simp [analyze_temperature_trend_statistics_error cfg t _ hmax hmin] at h
        · rw [analyze_weather_trend] at h
          simp [analyze_temperature_trend_keyerror_max cfg t _ hmax hmin hMx] at h
    rcases hmn : t.temp_min with _ | m
    · by_cases hmax : (r0 :: rest).filterMap (·.temp_max) = []
      · rw [analyze_weather_trend] at h
        simp [analyze_temperature_trend_eq_empty cfg t _ hmax, analyze_comfort,
          getKey, hMx, hmn] at h
      · by_cases hmin : (r0 :: rest).filterMap (·.temp_min) = []
        · rw [analyze_weather_trend] at h
          simp [analyze_temperature_trend_statistics_error cfg t _ hmax hmin] at h
        · rw [analyze_weather_trend] at h
          simp [analyze_temperature_trend_keyerror_min cfg t _ M hmax hmin hMx hmn] at h
    · rcases hc : get_clothing_suggestion M m M with e | str
      · by_cases hmax : (r0 :: rest).filterMap (·.temp_max) = []
        · rw [analyze_error_of_clothing cfg t (r0 :: rest) M m e hMx hmn rfl
            ⟨_, analyze_temperature_trend_eq_empty cfg t _ hmax⟩ hc] at h
          simp at h
        · by_cases hmin : (r0 :: rest).filterMap (·.temp_min) = []
          · rw [analyze_weather_trend] at h
            simp [analyze_temperature_trend_statistics_error cfg t _ hmax hmin] at h
          · rw [analyze_error_of_clothing cfg t (r0 :: rest) M m e hMx hmn rfl
              ⟨_, analyze_temperature_trend_eq_full cfg t _ M m hMx hmn hmax hmin⟩ hc] at h
            simp at h
      · by_cases hmax : (r0 :: rest).filterMap (·.temp_max) = []
        · rw [analyze_weather_trend_eq_ok cfg t (r0 :: rest) _ _ _ _ rfl
            (analyze_temperature_trend_eq_empty cfg t _ hmax)
            (analyze_comfort_eq_ok t M m hMx hmn)
            (check_warnings_eq_ok cfg t (r0 :: rest) M m hMx hmn)
            (by
              rw [generate_suggestions_eq t _ (some _) M m hMx hmn,
                get_clothing_suggestion_apparent_irrelevant M m _ M, hc]
              rfl)] at h
          simp only [Except.ok.injEq] at h
          subst h
          exact ⟨⟨rfl, rfl⟩, rfl⟩
        · by_cases hmin : (r0 :: rest).filterMap (·.temp_min) = []
          · rw [analyze_weather_trend] at h
            simp [analyze_temperature_trend_statistics_error cfg t _ hmax hmin] at h
          · rw [analyze_weather_trend_eq_ok cfg t (r0 :: rest) _ _ _ _ rfl
              (analyze_temperature_trend_eq_full cfg t _ M m hMx hmn hmax hmin)
              (analyze_comfort_eq_ok t M m hMx hmn)
              (check_warnings_eq_ok cfg t (r0 :: rest) M m hMx hmn)
              (by
                rw [generate_suggestions_eq t _ (some _) M m hMx hmn,
                  get_clothing_suggestion_apparent_irrelevant M m _ M, hc]
                rfl)] at h
            simp only [Except.ok.injEq] at h
            subst h
            exact ⟨⟨rfl, rfl⟩, rfl⟩

/-- A record of the StatisticsError corner: a history in which some record
carries `temp_max` but no record carries `temp_min` makes `analyze` fail even
with tomorrow's temperatures present, independently of the clothing bug. -/
theorem statistics_error_on_min_less_history :
    analyze_weather_trend ⟨none, none, none, none⟩
      (Forecast.mk "2024-05-01" (some 21) (some 11) none none none none)
      [Forecast.mk "2024-04-30" (some 20) none none none none none] =
      .error "StatisticsError: mean requires at least one data point" := by
  with_unfolding_all rfl

/-- C8: the claimed "never fails when both temperatures are present" is the
spec's clear intent (§4.1 "Never fails on valid inputs"), but the code has a
slip: with tomorrow 25/10 present and a perfectly well-formed history, the
malformed f-string format spec `{temp_max:. 0f}` (line 231) raises
`ValueError` (first conjunct, the failing input).  The second conjunct is the
exact failure characterization of the code — missing required temperature,
history with a `temp_max` but no `temp_min` at all (empty-list mean), or the
malformed clothing branch (`temp_diff ≥ 12` and `temp_max ≥ 20`) — and the
third shows every successful analysis substitutes the documented defaults
(precipitation probability 0, weather "未知", humidity 50). -/
theorem C8_failure_characterization_vs_bug :
    (analyze_weather_trend ⟨none, none, none, none⟩
      (Forecast.mk "2024-05-01" (some 25) (some 10) none none none none)
      [Forecast.mk "2024-04-30" (some 20) (some 12) none none none none] =
      .error "ValueError: Format specifier missing precision") ∧
    (∀ (cfg : AnalysisConfig) (t : Forecast) (hist : List Forecast),
      (∃ e, analyze_weather_trend cfg t hist = .error e) ↔
        (t.temp_max = none ∨ t.temp_min = none ∨
          (hist.filterMap (·.temp_max) ≠ [] ∧ hist.filterMap (·.temp_min) = []) ∨
          (match t.temp_max, t.temp_min with
            | some M, some m => 12 ≤ M - m ∧ 20 ≤ M
            | _, _ => False))) ∧
    (∀ (cfg : AnalysisConfig) (t : Forecast) (hist : List Forecast) (a : Analysis),
      analyze_weather_trend cfg t hist = .ok a →
      (a.precipitation_trend.elim True (fun pt =>
        pt.probability = t.precipitation_probability.getD 0 ∧
        pt.weather_desc = t.weather.getD "未知")) ∧
      (a.comfort_analysis.elim True (fun c => c.humidity = t.humidity.getD 50))) :=
  ⟨by with_unfolding_all rfl,
    fun cfg t hist => analyze_error_iff cfg t hist,
    fun cfg t hist a h => analyze_ok_defaults cfg t hist a h⟩

set_option maxRecDepth 2000 in
/-- C8 witness: a forecast missing `temp_max` makes the analysis fail, and a
successful analysis of a forecast with all optional fields absent carries the
documented defaults. -/
theorem C8_failure_characterization_vs_bug_witness :
    (∃ e, analyze_weather_trend ⟨none, none, none, none⟩
      (Forecast.mk "2024-05-02" none (some 5) none none none none) [] = .error e) ∧
    (∃ a, analyze_weather_trend ⟨none, none, none, none⟩
        (Forecast.mk "2024-05-01" (some 26) (some 15) none none none none)
        [Forecast.mk "2024-04-30" (some 20) (some 12) none none none none] = .ok a ∧
      (a.precipitation_trend.elim True (fun pt =>
        pt.probability = (none : Option ℚ).getD 0 ∧
        pt.weather_desc = (none : Option String).getD "未知")) ∧
      (a.comfort_analysis.elim True (fun c => c.humidity = (none : Option ℚ).getD 50))) := by
  constructor
  · exact (C8_failure_characterization_vs_bug.2.1 ⟨none, none, none, none⟩
      (Forecast.mk "2024-05-02" none (some 5) none none none none) []).mpr (Or.inl rfl)
  · obtain ⟨a, ha⟩ : ∃ a, analyze_weather_trend ⟨none, none, none, none⟩
        (Forecast.mk "2024-05-01" (some 26) (some 15) none none none none)
        [Forecast.mk "2024-04-30" (some 20) (some 12) none none none none] = .ok a :=
      ⟨_, by with_unfolding_all rfl⟩
    exact ⟨a, ha, C8_failure_characterization_vs_bug.2.2 ⟨none, none, none, none⟩
      (Forecast.mk "2024-05-01" (some 26) (some 15) none none none none)
      [Forecast.mk "2024-04-30" (some 20) (some 12) none none none none] a ha⟩

/-- Cancel a common prefix and suffix of string appends. -/
theorem string_append_cancel (B s n1 n2 : String) (h : B ++ n1 ++ s = B ++ n2 ++ s) :
    n1 = n2 := by
  apply String.ext
  have hd : B.data ++ n1.data ++ s.data = B.data ++ n2.data ++ s.data :=
    congrArg String.data h
  exact List.append_cancel_left (List.append_cancel_right hd)

/-- A fixed sample analysis value (degenerate no-history shape). -/
def demoAnalysis : Analysis :=
  ⟨⟨"2024-05-01", some 20, some 12, some "晴", some 55, some 10, some "3级"⟩,
    .simpleOnly "暂无历史数据对比", none, none, [],
    ⟨"👔 外套 + 长袖", "暂无建议", "注意关注天气变化"⟩⟩

set_option maxRecDepth 2000 in
/-- C6 counterexample: rendering the very same analysis value twice does NOT
yield byte-identical report text — the report embeds the generation clock
reading (`datetime.now()` in the source), so two calls made one second apart
differ.  This refutes "rendering the same analysis value twice yields …
byte-identical report text". -/
theorem C6_counterexample_render_not_reproducible :
    format_report demoAnalysis "2024-05-01 08:00:00" ≠
      format_report demoAnalysis "2024-05-01 08:00:01" := by
  intro h
  have hne : ¬ ((format_report demoAnalysis "2024-05-01 08:00:00").toOption =
      (format_report demoAnalysis "2024-05-01 08:00:01").toOption) := by
    with_unfolding_all decide
  exact hne (congrArg Except.toOption h)

/-- C6 (amended): `analyze_weather_trend`, `generate_suggestions` and
`format_report` are pure functions of their arguments (determinism is
definitional in the embedding), but the rendered report is a function of the
analysis AND of the generation clock reading: for a fixed analysis (with its
temperatures present), two renders are byte-identical exactly when the
embedded generation timestamps coincide. -/
theorem C6_render_deterministic_given_clock (a : Analysis) (n1 n2 : String) (M m : ℚ)
    (hm : a.tomorrow.temp_min = some m) (hM : a.tomorrow.temp_max = some M) :
    format_report a n1 = format_report a n2 ↔ n1 = n2 := by
  constructor
  · intro h
    simp only [format_report, getKey, hm, hM, Except.ok.injEq] at h
    exact string_append_cancel _ _ _ _ h
  · intro h
    rw [h]

/-- C6 witness: at equal clock readings the two renders agree. -/
theorem C6_render_deterministic_given_clock_witness :
    format_report demoAnalysis "2024-05-01 08:30:00" =
      format_report demoAnalysis "2024-05-01 08:30:00" :=
  (C6_render_deterministic_given_clock demoAnalysis _ _ 20 12 rfl rfl).mpr rfl

/-- A pattern occurring in `y` occurs in `x ++ y`. -/
theorem infixCheck_append_left (p x y : List Char) (h : infixCheck p y = true) :
    infixCheck p (x ++ y) = true := by
  induction x with
  | nil => simpa using h
  | cons c cs ih => simp [infixCheck, ih, Bool.or_eq_true]

/-- Prefix test is preserved under prepending a common prefix. -/
theorem isPrefixOf_peel (a b c : List Char) (h : b.isPrefixOf c = true) :
    (a ++ b).isPrefixOf (a ++ c) = true := by
  induction a with
  | nil => simpa using h
  | cons d ds ih => simp [List.isPrefixOf, ih]

/-- A prefix of `b` is a prefix of `b ++ c`. -/
theorem isPrefixOf_extend (p : List Char) : ∀ (b c : List Char),
    p.isPrefixOf b = true → p.isPrefixOf (b ++ c) = true := by
  induction p with
  | nil => intro b c _; simp [List.isPrefixOf]
  | cons a as ih =>
    intro b c h
    cases b with
    | nil => simp [List.isPrefixOf] at h
    | cons d ds =>
      simp only [List.isPrefixOf, Bool.and_eq_true] at h
      simp [List.cons_append, List.isPrefixOf, h.1, ih ds c h.2]

/-- A prefix occurrence is an occurrence. -/
theorem infixCheck_of_isPrefixOf (p l : List Char) (h : p.isPrefixOf l = true) :
    infixCheck p l = true := by
  cases l with
  | nil =>
    cases p with
    | nil => rfl
    | cons a as => simp [List.isPrefixOf] at h
  | cons c cs => simp [infixCheck, h]

/-- Concrete forecast with a three-decimal temperature 23.456. -/
def c7forecast : Forecast :=
  ⟨"2024-05-01", some (23456/1000), some 18, some "晴", some 60, some 10, some "3级"⟩

/-- Concrete well-formed historical record. -/
def c7hist : Forecast :=
  ⟨"2024-04-30", some 22, some 17, some "晴", some 55, some 20, some "2级"⟩

set_option maxRecDepth 2000 in
/-- C7 counterexample: feeding temp_max = 23.456 through analysis and
rendering (empty history), the rendered report contains the VERBATIM string
"23.456" — the header interpolates the raw forecast temperatures — and the
1-decimal rounding "23.5" appears nowhere in it.  This refutes "every
temperature value is formatted with exactly 1 decimal place … 23.456 appears
as 23.5". -/
theorem C7_counterexample_raw_temperature_in_report :
    ((analyze_weather_trend ⟨none, none, none, none⟩ c7forecast []).bind
        (fun a => format_report a "2024-05-01 08:00:00")).toOption.map
      (fun s => (strContains s "23.456", strContains s "23.5")) =
      some (true, false) := by
  with_unfolding_all decide

set_option maxRecDepth 2000 in
/-- C7 (amended): the report header renders the forecast's own temp_min and
temp_max verbatim (`str(x)`, not 1-decimal) — for every analysis with both
temperatures present the rendered report contains the substring
"{temp_min}°C ~ {temp_max}°C" with the raw values — while derived numeric
fields are rounded to 1 decimal place, rounded rather than truncated:
concretely, temp_max 23.456 appears verbatim as "23.456" in the header and as
"23.5" (never a truncated "23.4°C") in the apparent-temperature field. -/
theorem C7_header_verbatim_derived_rounded :
    (∀ (a : Analysis) (now : String) (M m : ℚ), a.tomorrow.temp_min = some m →
      a.tomorrow.temp_max = some M →
      ∃ r, format_report a now = .ok r ∧
        strContains r (ratStr m ++ "°C ~ " ++ (ratStr M ++ "°C")) = true) ∧
    ((analyze_weather_trend ⟨none, none, none, none⟩ c7forecast [c7hist]).bind
        (fun a => format_report a "2024-05-01 08:00:00")).toOption.map
      (fun s => (strContains s "23.456", strContains s "体感温度**: 23.5°C",
        strContains s "23.4°C")) = some (true, true, false) := by
  constructor
  · intro a now M m hm hM
    obtain ⟨r, hr⟩ : ∃ r, format_report a now = .ok r := by
      simp only [format_report, getKey, hm, hM]
      exact ⟨_, rfl⟩
    refine ⟨r, hr, ?_⟩
    simp only [format_report, getKey, hm, hM, Except.ok.injEq] at hr
    subst hr
    unfold strContains
    simp only [String.data_append, List.append_assoc]
    apply infixCheck_append_left
    apply infixCheck_append_left
    apply infixCheck_append_left
    apply infixCheck_append_left
    apply infixCheck_append_left
    apply infixCheck_of_isPrefixOf
    apply isPrefixOf_peel
    apply isPrefixOf_peel
    apply isPrefixOf_peel
    apply isPrefixOf_extend
    decide
  · with_unfolding_all decide

set_option maxRecDepth 2000 in
/-- C7 witness: the universally quantified part instantiated at the sample
analysis value. -/
theorem C7_header_verbatim_derived_rounded_witness :
    ∃ r, format_report demoAnalysis "2024-05-01 08:00:00" = .ok r ∧
      strContains r (ratStr 12 ++ "°C ~ " ++ (ratStr 20 ++ "°C")) = true :=
  C7_header_verbatim_derived_rounded.1 demoAnalysis "2024-05-01 08:00:00" 20 12 rfl rfl
